import Mathlib

/-!
Shallow embedding of the `go.airbrake` client library (src/airbrake.go) in
Lean 4, together with theorems checking the natural-language specification
against it.

Modelling conventions:
* Go strings are `String`; Go `uint64` report identifiers are `Nat`
  (the code never does arithmetic on them, so no wrap-around is involved).
* Go multiple-return `(value, err)` pairs from external collaborators
  (the `shorturl` and `airbat` packages, `encoding/json`, `net/http`)
  are modelled as explicit function parameters returning either an
  `Except` or a `value × Option err` pair, matching whether the Go call
  site reads the value even when `err != nil`.
* Pointer-typed optional inputs (`*Config` which may be nil) are `Option`.
* Go nil-able maps (`Vars`) are plain association lists; `encoding/json`'s
  `omitempty` omits a map field exactly when it has length zero, which is
  modelled on the list length.
-/

namespace Airbrake

/-- `Config` from src/airbrake.go. `io.Writer` fields are modelled by their
presence (`Bool`), which is all the control flow inspects. -/
structure Config where
  appVersion : String := ""
  appURL : String := ""
  userID : String := ""
  userName : String := ""
  userEmail : String := ""
  hasDebugLogOut : Bool := false
  hasDebugLogIn : Bool := false
  hasLogWriter : Bool := false
  logStdoutSilent : Bool := false
  urlService : String := ""
  deriving Repr, DecidableEq

/-- `URLServiceNone` constant. -/
def URLServiceNone : String := ""

/-- `URLServiceAirbat` constant. -/
def URLServiceAirbat : String := "airbat"

/-- `URLServiceTinyurl` constant. -/
def URLServiceTinyurl : String := "tinyurl"

/-- `var defaultConfig = &Config{}`: the all-zero configuration. -/
def defaultConfig : Config := {}

/-- The `context` struct from src/airbrake.go. -/
structure Context where
  os : String
  language : String
  rootDirectory : String
  environment : String
  version : String
  url : String
  userID : String
  userName : String
  userEmail : String
  deriving Repr, DecidableEq

/-- The `Brake` struct from src/airbrake.go. -/
structure Brake where
  config : Config
  context : Context
  projectID : String
  apiKey : String
  noticeURL : String
  deriving Repr, DecidableEq

/-- `fmt.Sprintf(airbrakeNoticeURL, projectID, key)` with the template
`http://airbrake.io/api/v3/projects/%s/notices?key=%s`. -/
def mkNoticeURL (projectID key : String) : String :=
  "http://airbrake.io/api/v3/projects/" ++ projectID ++ "/notices?key=" ++ key

/-- `NewBrake` from src/airbrake.go. The process facts read at construction
(`runtime.GOOS`, `runtime.GOARCH`, `runtime.Version()`, `os.Getwd()`) are
parameters `goos`, `goarch`, `goversion`, `pwd`; a nil `*Config` is `none`. -/
def NewBrake (goos goarch goversion pwd : String)
    (projectID key environment : String) (config : Option Config) : Brake :=
  let config := match config with
    | none => defaultConfig
    | some c => c
  { config := config
    context :=
      { os := goos ++ "_" ++ goarch
        language := goversion
        rootDirectory := pwd
        environment := environment
        version := config.appVersion
        url := config.appURL
        userID := config.userID
        userName := config.userName
        userEmail := config.userEmail }
    projectID := projectID
    apiKey := key
    noticeURL := mkNoticeURL projectID key }

/-- `Brake.SetUserDetails` from src/airbrake.go: overwrites the three user
fields on the live context. -/
def SetUserDetails (b : Brake) (id name email : String) : Brake :=
  { b with context := { b.context with userID := id, userName := name, userEmail := email } }

/-- The `noticeSuccess` struct: decoded body of a 201 response. -/
structure noticeSuccess where
  id : Nat
  url : String
  deriving Repr, DecidableEq

/-- URL resolution step of `Brake.processNotice` (src/airbrake.go lines
207-224), transcribed statement by statement.  `airbatEnc` stands for
`airbat.UintToAirbatURL` and `shorten` for `shorturl.Shorten`; the latter
returns its `[]byte` result (as a `String`) together with an optional error,
because the Go code reads `urlBytes` even on the error path.  Go's
`var url string` starts at the zero value `""`; the assignment
`url = string(urlBytes)` at line 223 runs unconditionally after the
fallback `if` of lines 219-222. -/
def resolveURL (cfg : Config) (airbatEnc : Nat → Except String String)
    (shorten : String → String → String × Option String)
    (ns : noticeSuccess) : String :=
  if cfg.urlService = URLServiceNone then
    ns.url
  else if cfg.urlService = URLServiceAirbat then
    match airbatEnc ns.id with
    | .ok u => u
    | .error _ => ns.url
  else
    let r := shorten ns.url cfg.urlService
    let urlBytes := r.1
    let err := r.2
    let url := ""
    let url := if err.isSome ∨ urlBytes.length = 0 then ns.url else url
    let url := urlBytes
    url

/-- The human-log line written for a resolved URL (line 227). -/
def urlLogLine (url : String) : String := "error " ++ url ++ "\n"

/-- The `notifier` struct from src/airbrake.go. -/
structure notifier where
  Name : String
  Version : String
  URL : String
  deriving Repr, DecidableEq

/-- The package-level `Notifier` value from src/airbrake.go. -/
def Notifier : notifier :=
  { Name := "go.airbrake"
    Version := "0.1"
    URL := "https://github.com/GeertJohan/go.airbrake" }

/-- A stack-trace `line` from src/airbrake.go.  The same shape also models a
frame returned by `runtime.Caller`/`runtime.FuncForPC`, since `processNotice`
copies those three values verbatim into a `line`. -/
structure line where
  File : String
  Line : Int
  Function : String
  deriving Repr, DecidableEq

/-- `Vars` (`map[string]interface{}`): an association list.  Claim-relevant
behaviour only depends on the map being carried verbatim and on whether it is
empty, so values are kept as strings. -/
abbrev Vars := List (String × String)

/-- The `airError` struct.  `Backtrace []line` distinguishes a nil slice from
an allocated one (`processNotice` tests `== nil`), hence `Option`. -/
structure airError where
  Type' : String
  Message : String
  Backtrace : Option (List line)
  deriving Repr, DecidableEq

/-- The `notice` struct.  The `*notifier` and `*context` pointers are nil
until `processNotice` fills them in, hence `Option`. -/
structure notice where
  Notifier : Option notifier
  Context : Option Context
  Errors : List airError
  Environment : Vars
  Session : Vars
  Params : Vars
  deriving Repr, DecidableEq

/-- The `Data` struct passed to `NotifyData`. -/
structure Data where
  Environment : Vars
  Session : Vars
  Params : Vars
  deriving Repr, DecidableEq

/-- The notice literal built by `Brake.Notify` (src/airbrake.go lines
296-303) and handed to `processNotice`: a single error entry, everything
else at its zero value. -/
def notifyNotice (errorClass errorMessage : String) : notice :=
  { Notifier := none
    Context := none
    Errors := [{ Type' := errorClass, Message := errorMessage, Backtrace := none }]
    Environment := []
    Session := []
    Params := [] }

/-- Modelled from the spec: `Brake.Error` is called by `Notifyf` (line 313)
and `Recover` (line 328) but its definition is not under src/ (only callers
and an obsolete revision are).  The spec's `report(class, message)` operation
"builds and sends a notice with no structured data" whose "single error entry
has `type == class` and `message == message`". -/
def errorNotice (errorClass errorMessage : String) : notice :=
  { Notifier := none
    Context := none
    Errors := [{ Type' := errorClass, Message := errorMessage, Backtrace := none }]
    Environment := []
    Session := []
    Params := [] }

/-- The notice submitted by `Brake.Notifyf` (lines 312-314):
`b.Error(errorClass, fmt.Sprintf(format, values...))`.  `fmt.Sprintf` is the
external formatting collaborator, passed in as `sprintf`. -/
def notifyfNotice (sprintf : String → List String → String)
    (errorClass format : String) (values : List String) : notice :=
  errorNotice errorClass (sprintf format values)

/-- The notice literal built by `Brake.NotifyData` (lines 371-384). -/
def notifyDataNotice (errorClass errorMessage : String) (data : Data) : notice :=
  { Notifier := none
    Context := none
    Errors := [{ Type' := errorClass, Message := errorMessage, Backtrace := none }]
    Environment := data.Environment
    Session := data.Session
    Params := data.Params }

/-- `Brake.Recover` (lines 326-330) as a step on the Go panic state.
`recVal` models what the builtin `recover()` returns inside the deferred
call: `none` when no panic is in flight, `some r` when the surrounding scope
is unwinding from `panic(r)` with a non-nil value (calling `recover` during
unwinding stops the panic).  `sprint` is `fmt.Sprint`.  The result is the
list of notices reported, paired with the panic state still propagating when
`Recover` returns. -/
def RecoverStep {α : Type} (sprint : α → String) (recVal : Option α) :
    List notice × Option α :=
  match recVal with
  | none => ([], none)
  | some r => ([errorNotice "panic" (sprint r)], none)

/-- `strings.Contains` on character lists: `hasPrefixChars s pat` is true
when `pat` is a prefix of `s`. -/
def hasPrefixChars : List Char → List Char → Bool
  | _, [] => true
  | [], _ :: _ => false
  | a :: as, b :: bs => a = b && hasPrefixChars as bs

/-- `containsChars s pat`: `pat` occurs as a contiguous substring of `s`. -/
def containsChars : List Char → List Char → Bool
  | [], pat => pat.isEmpty
  | s@(_ :: rest), pat => hasPrefixChars s pat || containsChars rest pat

/-- `strings.Contains`. -/
def goContains (s sub : String) : Bool := containsChars s.data sub.data

/-- The frame-skip condition of `processNotice` (lines 181-190): while the
backtrace is still empty, a frame is skipped when its function name contains
the library's client-method marker or is the runtime panic dispatcher. -/
def skipFrame (funcName : String) : Bool :=
  goContains funcName "airbrake.(*Brake)." || funcName = "runtime.panic"

/-- The stack walk of `processNotice` (lines 170-198) over the caller frames
`stack` (innermost first, as produced by `runtime.Caller` for increasing
skip counts), appending to the accumulated backtrace `acc`. -/
def buildBacktrace (acc : List line) : List line → List line
  | [] => acc
  | f :: rest =>
    if acc.isEmpty && skipFrame f.Function then
      buildBacktrace acc rest
    else
      buildBacktrace (acc ++ [f]) rest

/-- The backtrace produced by `processNotice` given the notice's existing
`Backtrace` field (lines 165-167 replace a nil slice by an empty one). -/
def captureBacktrace (existing : Option (List line)) (stack : List line) : List line :=
  buildBacktrace (match existing with | none => [] | some bt => bt) stack

/-- Error string of src/airbrake.go line 240. -/
def encodeFailMsg (e : String) : String := "error encoding airbrake notice: " ++ e ++ "\n"

/-- Error string of line 246 (the "airbake" typo is the source's). -/
def postFailMsg (cause : String) : String :=
  "error making request to airbake service: " ++ cause ++ "\n"

/-- Error string of line 261. -/
def decodeFailMsg (e : String) : String := "error decoding response json: " ++ e ++ "\n"

/-- Error string of line 266. -/
def badStatusMsg (status : String) : String :=
  "unexpected status from api: `" ++ status ++ "`"

/-- The result of `http.Post`: either a network-level failure or a response
with a numeric status code, a status line, and a body. -/
inductive httpResult where
  | failure (cause : String)
  | response (statusCode : Nat) (status : String) (body : String)
  deriving Repr, DecidableEq

/-- `Brake.sendNotice` (lines 230-275).  The external collaborators are
parameters: `encode` is `json.Encoder.Encode` (producing the serialized
body), `post` is `http.Post` at a URL, and `decode` is `json.Decoder.Decode`
applied to a response body.  Debug mirroring does not affect the result and
is omitted. -/
def sendNotice (encode : notice → Except String String)
    (post : String → String → httpResult)
    (decode : String → Except String noticeSuccess)
    (b : Brake) (not : notice) : Except String noticeSuccess :=
  match encode not with
  | .error e => .error (encodeFailMsg e)
  | .ok body =>
    match post b.noticeURL body with
    | .failure cause => .error (postFailMsg cause)
    | .response statusCode status rbody =>
      if statusCode = 201 then
        match decode rbody with
        | .ok ns => .ok ns
        | .error e => .error (decodeFailMsg e)
      else
        .error (badStatusMsg status)

/-- The top-level JSON keys emitted when serializing a notice, following the
struct tags of src/airbrake.go lines 388-402: `notifier`, `context`,
`errors` always; `environment`, `session`, `params` carry `omitempty`, so
`encoding/json` omits each exactly when the map has length zero. -/
def noticeWireKeys (n : notice) : List String :=
  ["notifier", "context", "errors"] ++
  (if n.Environment.length = 0 then [] else ["environment"]) ++
  (if n.Session.length = 0 then [] else ["session"]) ++
  (if n.Params.length = 0 then [] else ["params"])

end Airbrake

namespace Airbrake

/-- C8 theorem. -/
theorem resolveURL_airbat_fallback (cfg : Config)
    (airbatEnc : Nat → Except String String)
    (shorten shorten' : String → String → String × Option String)
    (ns : noticeSuccess)
    (hsvc : cfg.urlService = URLServiceAirbat)
    (hfail : ∀ id, ∃ e, airbatEnc id = .error e) :
    resolveURL cfg airbatEnc shorten ns = ns.url ∧
    resolveURL cfg airbatEnc shorten ns = resolveURL cfg airbatEnc shorten' ns := by
  obtain ⟨e, he⟩ := hfail ns.id
  have hne : cfg.urlService ≠ URLServiceNone := by
    rw [hsvc]; intro h; exact absurd h (by decide)
  unfold resolveURL
  simp only [if_neg hne, if_pos hsvc, he]
  exact ⟨trivial, trivial⟩

/-- C8 witness: an airbat encoder that always fails, a concrete notice
result; the human URL is the canonical one. -/
theorem resolveURL_airbat_fallback_witness :
    resolveURL { urlService := "airbat" } (fun _ => Except.error "encode failed")
      (fun _ _ => ("short", none)) ⟨7, "http://x/7"⟩ = "http://x/7" :=
  (resolveURL_airbat_fallback { urlService := "airbat" }
    (fun _ => Except.error "encode failed") (fun _ _ => ("short", none))
    (fun _ _ => ("other", none)) ⟨7, "http://x/7"⟩ rfl
    (fun _ => ⟨"encode failed", rfl⟩)).1

/-- C1: evaluation of the URL-resolution code at a failing external
shortening call.  With a named external service configured and `shorten`
returning an error (or an empty result), the resolved URL is the string of
the returned bytes — the empty string — not the canonical report URL,
because line 223 overwrites the fallback assigned at line 221. -/
theorem resolveURL_external_failure_eval :
    resolveURL { urlService := "tinyurl" } (fun _ => Except.error "unused")
        (fun _ _ => ("", some "connection refused")) ⟨42, "http://x/42"⟩ = "" ∧
    resolveURL { urlService := "tinyurl" } (fun _ => Except.error "unused")
        (fun _ _ => ("", none)) ⟨42, "http://x/42"⟩ = "" ∧
    ("" : String) ≠ "http://x/42" := by
  refine ⟨by decide, by decide, by decide⟩

/-- C2: `Notifyf` submits exactly the notice that `Notify` submits for the
formatted message, for every formatter, class, format string and argument
list. -/
theorem notifyf_eq_notify_sprintf (sprintf : String → List String → String)
    (errorClass fmtStr : String) (values : List String) :
    notifyfNotice sprintf errorClass fmtStr values =
      notifyNotice errorClass (sprintf fmtStr values) := rfl

/-- C3: `Recover` during unwinding from `panic(v)` reports exactly one
notice, with class `"panic"` and message the string form of `v`, and no
panic keeps propagating afterwards (the surrounding call returns normally);
with no fault in flight it reports nothing. -/
theorem recover_absorbs_and_reports {α : Type} (sprint : α → String) (v : α) :
    RecoverStep sprint (some v) = ([errorNotice "panic" (sprint v)], none) ∧
    (RecoverStep sprint (some v)).1.length = 1 ∧
    (errorNotice "panic" (sprint v)).Errors =
      [{ Type' := "panic", Message := sprint v, Backtrace := none }] ∧
    RecoverStep sprint (none : Option α) = ([], none) :=
  ⟨rfl, rfl, rfl, rfl⟩

/-- Unfolding equation of `buildBacktrace` at a cons cell. -/
theorem buildBacktrace_cons (acc : List line) (f : line) (rest : List line) :
    buildBacktrace acc (f :: rest) =
      if acc.isEmpty && skipFrame f.Function then buildBacktrace acc rest
      else buildBacktrace (acc ++ [f]) rest := rfl

/-- Helper for C4: once the accumulated backtrace is non-empty, the walk
records every remaining frame unconditionally. -/
theorem buildBacktrace_of_ne_nil (l : List line) :
    ∀ acc : List line, acc ≠ [] → buildBacktrace acc l = acc ++ l := by
  induction l with
  | nil => intro acc _; simp [buildBacktrace]
  | cons f rest ih =>
    intro acc h
    have hemp : acc.isEmpty = false := by
      cases acc with
      | nil => exact absurd rfl h
      | cons a as => rfl
    rw [buildBacktrace_cons, hemp]
    simp only [Bool.false_and, Bool.false_eq_true, if_false]
    rw [ih (acc ++ [f]) (by simp)]
    simp

/-- Helper for C4: while the backtrace is empty, frames satisfying the skip
condition are dropped. -/
theorem buildBacktrace_skips_leading :
    ∀ pre : List line, (∀ g ∈ pre, skipFrame g.Function = true) →
      ∀ l : List line, buildBacktrace [] (pre ++ l) = buildBacktrace [] l := by
  intro pre
  induction pre with
  | nil => intro _ l; rfl
  | cons g pre' ih =>
    intro h l
    have hg : skipFrame g.Function = true := h g (by simp)
    have h' : ∀ g' ∈ pre', skipFrame g'.Function = true := by
      intro g' hg'; exact h g' (by simp [hg'])
    show buildBacktrace [] (g :: (pre' ++ l)) = buildBacktrace [] l
    rw [buildBacktrace_cons, hg]
    simp only [List.isEmpty_nil, Bool.and_self, if_true]
    exact ih h' l

/-- C4 theorem. -/
theorem backtrace_skips_only_leading (pre : List line) (f : line) (rest : List line)
    (hpre : ∀ g ∈ pre, skipFrame g.Function = true)
    (hf : skipFrame f.Function = false) :
    captureBacktrace none (pre ++ f :: rest) = f :: rest ∧
    (captureBacktrace none (pre ++ f :: rest)).head? = some f := by
  have h1 : captureBacktrace none (pre ++ f :: rest) = buildBacktrace [] (pre ++ f :: rest) := rfl
  rw [h1, buildBacktrace_skips_leading pre hpre (f :: rest)]
  have h2 : buildBacktrace [] (f :: rest) = buildBacktrace [f] rest := by
    rw [buildBacktrace_cons, hf]
    simp
  rw [h2, buildBacktrace_of_ne_nil rest [f] (by simp)]
  exact ⟨rfl, rfl⟩

/-- C4 witness: a walk whose leading frame is a library client method and
whose later frames include the runtime frames; the first recorded frame is
the application call site, and the post-acceptance runtime frame is kept. -/
theorem backtrace_skips_only_leading_witness :
    captureBacktrace none
        [⟨"/go/src/airbrake/airbrake.go", 304, "github.com/GeertJohan/go.airbrake.(*Brake).Notify"⟩,
         ⟨"/app/main.go", 10, "main.main"⟩,
         ⟨"/go/src/runtime/proc.go", 250, "runtime.main"⟩] =
      [⟨"/app/main.go", 10, "main.main"⟩,
       ⟨"/go/src/runtime/proc.go", 250, "runtime.main"⟩] :=
  (backtrace_skips_only_leading
    [⟨"/go/src/airbrake/airbrake.go", 304, "github.com/GeertJohan/go.airbrake.(*Brake).Notify"⟩]
    ⟨"/app/main.go", 10, "main.main"⟩
    [⟨"/go/src/runtime/proc.go", 250, "runtime.main"⟩]
    (by decide) (by decide)).1

/-- The decode-failure error string after a 201 never coincides with the
non-201 status error string (their literal prefixes differ). -/
theorem decodeFailMsg_ne_badStatusMsg (e s : String) :
    decodeFailMsg e ≠ badStatusMsg s := by
  intro h
  have h' := congrArg String.data h
  simp only [decodeFailMsg, badStatusMsg, String.data_append] at h'
  simp at h'

/-- C5 theorem. -/
theorem sendNotice_response_classification
    (encode : notice → Except String String)
    (post : String → String → httpResult)
    (decode decode' : String → Except String noticeSuccess)
    (b : Brake) (not : notice) (body : String)
    (statusCode : Nat) (status rbody : String)
    (henc : encode not = .ok body)
    (hpost : post b.noticeURL body = .response statusCode status rbody) :
    (∀ ns, statusCode = 201 → decode rbody = .ok ns →
        sendNotice encode post decode b not = .ok ns) ∧
    (∀ ns, sendNotice encode post decode b not = .ok ns →
        statusCode = 201 ∧ decode rbody = .ok ns) ∧
    (statusCode ≠ 201 →
        sendNotice encode post decode b not = .error (badStatusMsg status) ∧
        sendNotice encode post decode b not = sendNotice encode post decode' b not) ∧
    (∀ e, statusCode = 201 → decode rbody = .error e →
        sendNotice encode post decode b not = .error (decodeFailMsg e) ∧
        ∀ s', decodeFailMsg e ≠ badStatusMsg s') := by
  have hsend : ∀ dec : String → Except String noticeSuccess,
      sendNotice encode post dec b not =
        if statusCode = 201 then
          (match dec rbody with
           | .ok ns => .ok ns
           | .error e => .error (decodeFailMsg e))
        else .error (badStatusMsg status) := by
    intro dec
    unfold sendNotice
    simp only [henc, hpost]
  simp only [hsend]
  refine ⟨?_, ?_, ?_, ?_⟩
  · intro ns h201 hdec
    rw [if_pos h201, hdec]
  · intro ns hok
    by_cases h201 : statusCode = 201
    · rw [if_pos h201] at hok
      refine ⟨h201, ?_⟩
      cases hdec : decode rbody with
      | ok ns' => rw [hdec] at hok; exact congrArg Except.ok (Except.ok.inj hok)
      | error e => rw [hdec] at hok; exact absurd hok (by simp)
    · rw [if_neg h201] at hok
      exact absurd hok (by simp)
  · intro h201
    simp only [if_neg h201]
    exact ⟨trivial, trivial⟩
  · intro e h201 hdec
    rw [if_pos h201, hdec]
    exact ⟨rfl, fun s' => decodeFailMsg_ne_badStatusMsg e s'⟩

/-- C5 witness: a stubbed endpoint answering 201 with body
`{"id":"42","url":"http://x/42"}` (decoded by the json collaborator into
`noticeSuccess 42 "http://x/42"`) yields that notice result, and the same
endpoint answering 422 yields the status-line transport error. -/
theorem sendNotice_response_classification_witness :
    sendNotice (fun _ => .ok "{}")
        (fun _ _ => .response 201 "201 Created" "\x7b\"id\":\"42\",\"url\":\"http://x/42\"\x7d")
        (fun s => if s = "\x7b\"id\":\"42\",\"url\":\"http://x/42\"\x7d"
          then .ok ⟨42, "http://x/42"⟩ else .error "json: unexpected body")
        (NewBrake "linux" "amd64" "go1.2" "/app" "123" "key" "production" none)
        (notifyNotice "EOF" "could not read from file") = .ok ⟨42, "http://x/42"⟩ ∧
    sendNotice (fun _ => .ok "{}")
        (fun _ _ => .response 422 "422 Unprocessable Entity" "ignored")
        (fun s => if s = "\x7b\"id\":\"42\",\"url\":\"http://x/42\"\x7d"
          then .ok ⟨42, "http://x/42"⟩ else .error "json: unexpected body")
        (NewBrake "linux" "amd64" "go1.2" "/app" "123" "key" "production" none)
        (notifyNotice "EOF" "could not read from file") =
      .error (badStatusMsg "422 Unprocessable Entity") :=
  ⟨(sendNotice_response_classification (fun _ => .ok "{}")
      (fun _ _ => .response 201 "201 Created" "\x7b\"id\":\"42\",\"url\":\"http://x/42\"\x7d")
      (fun s => if s = "\x7b\"id\":\"42\",\"url\":\"http://x/42\"\x7d"
        then .ok ⟨42, "http://x/42"⟩ else .error "json: unexpected body")
      (fun _ => .error "unused")
      (NewBrake "linux" "amd64" "go1.2" "/app" "123" "key" "production" none)
      (notifyNotice "EOF" "could not read from file") "{}" 201 "201 Created"
      "\x7b\"id\":\"42\",\"url\":\"http://x/42\"\x7d" rfl rfl).1
      ⟨42, "http://x/42"⟩ rfl rfl,
   ((sendNotice_response_classification (fun _ => .ok "{}")
      (fun _ _ => .response 422 "422 Unprocessable Entity" "ignored")
      (fun s => if s = "\x7b\"id\":\"42\",\"url\":\"http://x/42\"\x7d"
        then .ok ⟨42, "http://x/42"⟩ else .error "json: unexpected body")
      (fun _ => .error "unused")
      (NewBrake "linux" "amd64" "go1.2" "/app" "123" "key" "production" none)
      (notifyNotice "EOF" "could not read from file") "{}" 422 "422 Unprocessable Entity"
      "ignored" rfl rfl).2.2.1 (by decide)).1⟩

/-- C6 theorem. -/
theorem notify_single_error (errorClass errorMessage : String)
    (hm : errorMessage ≠ "") :
    (notifyNotice errorClass errorMessage).Errors =
      [{ Type' := errorClass, Message := errorMessage, Backtrace := none }] ∧
    (notifyNotice errorClass errorMessage).Errors.length = 1 :=
  ⟨rfl, rfl⟩

/-- C6 witness. -/
theorem notify_single_error_witness :
    ("could not read from file" : String) ≠ "" ∧
    (notifyNotice "EOF" "could not read from file").Errors =
      [{ Type' := "EOF", Message := "could not read from file", Backtrace := none }] :=
  ⟨by decide, (notify_single_error "EOF" "could not read from file" (by decide)).1⟩

/-- C7 theorem. -/
theorem notifyData_copies_and_omits (errorClass errorMessage : String) (data : Data) :
    (notifyDataNotice errorClass errorMessage data).Environment = data.Environment ∧
    (notifyDataNotice errorClass errorMessage data).Session = data.Session ∧
    (notifyDataNotice errorClass errorMessage data).Params = data.Params ∧
    (data.Environment = [] →
      "environment" ∉ noticeWireKeys (notifyDataNotice errorClass errorMessage data)) ∧
    (data.Session = [] →
      "session" ∉ noticeWireKeys (notifyDataNotice errorClass errorMessage data)) ∧
    (data.Params = [] →
      "params" ∉ noticeWireKeys (notifyDataNotice errorClass errorMessage data)) ∧
    (data.Params ≠ [] →
      "params" ∈ noticeWireKeys (notifyDataNotice errorClass errorMessage data)) := by
  refine ⟨rfl, rfl, rfl, ?_, ?_, ?_, ?_⟩
  · intro h
    by_cases h2 : data.Session.length = 0 <;> by_cases h3 : data.Params.length = 0 <;>
      simp [noticeWireKeys, notifyDataNotice, h, h2, h3]
  · intro h
    by_cases h2 : data.Environment.length = 0 <;> by_cases h3 : data.Params.length = 0 <;>
      simp [noticeWireKeys, notifyDataNotice, h, h2, h3]
  · intro h
    by_cases h2 : data.Environment.length = 0 <;> by_cases h3 : data.Session.length = 0 <;>
      simp [noticeWireKeys, notifyDataNotice, h, h2, h3]
  · intro h
    have h3 : ¬ data.Params.length = 0 := by
      simpa [List.length_eq_zero] using h
    by_cases h1 : data.Environment.length = 0 <;> by_cases h2 : data.Session.length = 0 <;>
      simp [noticeWireKeys, notifyDataNotice, h1, h2, h3]

/-- C7 witness: the spec's example data, with only `params` supplied. -/
theorem notifyData_copies_and_omits_witness :
    (notifyDataNotice "data-dump" "some error message here"
        ⟨[], [], [("filename", "foo.bar")]⟩).Params = [("filename", "foo.bar")] ∧
    "params" ∈ noticeWireKeys (notifyDataNotice "data-dump" "some error message here"
        ⟨[], [], [("filename", "foo.bar")]⟩) ∧
    "environment" ∉ noticeWireKeys (notifyDataNotice "data-dump" "some error message here"
        ⟨[], [], [("filename", "foo.bar")]⟩) ∧
    "session" ∉ noticeWireKeys (notifyDataNotice "data-dump" "some error message here"
        ⟨[], [], [("filename", "foo.bar")]⟩) :=
  have h := notifyData_copies_and_omits "data-dump" "some error message here"
    ⟨[], [], [("filename", "foo.bar")]⟩
  ⟨h.2.2.1, h.2.2.2.2.2.2 (by decide), h.2.2.2.1 rfl, h.2.2.2.2.1 rfl⟩

/-- C9 theorem. -/
theorem setUserDetails_frame (b : Brake) (id name email : String)
    (goos goarch goversion pwd projectID key environment : String)
    (config : Option Config) :
    (SetUserDetails b id name email).context.userID = id ∧
    (SetUserDetails b id name email).context.userName = name ∧
    (SetUserDetails b id name email).context.userEmail = email ∧
    (SetUserDetails b id name email).config = b.config ∧
    (SetUserDetails b id name email).projectID = b.projectID ∧
    (SetUserDetails b id name email).apiKey = b.apiKey ∧
    (SetUserDetails b id name email).noticeURL = b.noticeURL ∧
    (SetUserDetails b id name email).context.os = b.context.os ∧
    (SetUserDetails b id name email).context.language = b.context.language ∧
    (SetUserDetails b id name email).context.rootDirectory = b.context.rootDirectory ∧
    (SetUserDetails b id name email).context.environment = b.context.environment ∧
    (SetUserDetails b id name email).context.version = b.context.version ∧
    (SetUserDetails b id name email).context.url = b.context.url ∧
    (NewBrake goos goarch goversion pwd projectID key environment config).noticeURL =
      mkNoticeURL projectID key :=
  ⟨rfl, rfl, rfl, rfl, rfl, rfl, rfl, rfl, rfl, rfl, rfl, rfl, rfl, by
    cases config <;> rfl⟩

/-- C10 theorem. -/
theorem newBrake_nil_config (goos goarch goversion pwd projectID key environment : String) :
    NewBrake goos goarch goversion pwd projectID key environment none =
      NewBrake goos goarch goversion pwd projectID key environment (some {}) ∧
    (NewBrake goos goarch goversion pwd projectID key environment none).config =
      defaultConfig ∧
    (NewBrake goos goarch goversion pwd projectID key environment none).context.userID = "" ∧
    (NewBrake goos goarch goversion pwd projectID key environment none).context.userName = "" ∧
    (NewBrake goos goarch goversion pwd projectID key environment none).context.userEmail = "" ∧
    (NewBrake goos goarch goversion pwd projectID key environment none).context.version = "" ∧
    (NewBrake goos goarch goversion pwd projectID key environment none).context.url = "" ∧
    (NewBrake goos goarch goversion pwd projectID key environment none).context.environment =
      environment :=
  ⟨rfl, rfl, rfl, rfl, rfl, rfl, rfl, rfl⟩

end Airbrake
